import Mathlib

/-!
# Verification of the WhatsApp Conversational-Agents webhook service

A shallow embedding, in Lean 4, of the TypeScript sources of the
Google-Conversational-Agents WhatsApp webhook service, together with proofs
of the behavioural claims made by its specification.

Embedded components:
* `src/utils/security.ts` — `verifyRequestSignature` (HMAC-SHA256 request
  signature verification, including a byte-level SHA-256 / HMAC-SHA256
  implementation so that signatures are computed for real);
* `src/controllers/webhookController.ts` — `verifyWebhook` (GET handshake)
  and `handleWebhook` (POST dispatcher);
* `src/services/messageHandler.ts` — the five per-type message handlers;
* `src/services/conversationalAgentService.ts` — `createSessionId` and the
  reply-extraction logic of `detectIntent`.

External services (Dialogflow CX, Gemini, the WhatsApp Graph API) are
modelled as an explicit environment of fallible calls; handlers thread an
event trace recording every outbound invocation.
-/

set_option maxRecDepth 100000

namespace WhatsAppBot

/-! ## Bytes, hex and UTF-8 helpers (Node `Buffer` semantics) -/

/-- 32-bit wrap-around addition. -/
def add32 (a b : Nat) : Nat := (a + b) % 4294967296

/-- 32-bit bitwise complement. -/
def not32 (x : Nat) : Nat := Nat.xor x 4294967295

/-- Rotate a 32-bit word right by `k` bits. -/
def rotr32 (k x : Nat) : Nat :=
  ((x >>> k) + (x <<< (32 - k))) % 4294967296

/-- SHA-256 big sigma-0. -/
def bsig0 (x : Nat) : Nat := Nat.xor (rotr32 2 x) (Nat.xor (rotr32 13 x) (rotr32 22 x))

/-- SHA-256 big sigma-1. -/
def bsig1 (x : Nat) : Nat := Nat.xor (rotr32 6 x) (Nat.xor (rotr32 11 x) (rotr32 25 x))

/-- SHA-256 small sigma-0. -/
def ssig0 (x : Nat) : Nat := Nat.xor (rotr32 7 x) (Nat.xor (rotr32 18 x) (x >>> 3))

/-- SHA-256 small sigma-1. -/
def ssig1 (x : Nat) : Nat := Nat.xor (rotr32 17 x) (Nat.xor (rotr32 19 x) (x >>> 10))

/-- SHA-256 choice function. -/
def ch32 (e f g : Nat) : Nat := Nat.xor (Nat.land e f) (Nat.land (not32 e) g)

/-- SHA-256 majority function. -/
def maj32 (a b c : Nat) : Nat :=
  Nat.xor (Nat.land a b) (Nat.xor (Nat.land a c) (Nat.land b c))

/-- The 64 SHA-256 round constants. -/
def sha256K : List Nat :=
  [1116352408, 1899447441, 3049323471, 3921009573,
   961987163, 1508970993, 2453635748, 2870763221,
   3624381080, 310598401, 607225278, 1426881987,
   1925078388, 2162078206, 2614888103, 3248222580,
   3835390401, 4022224774, 264347078, 604807628,
   770255983, 1249150122, 1555081692, 1996064986,
   2554220882, 2821834349, 2952996808, 3210313671,
   3336571891, 3584528711, 113926993, 338241895,
   666307205, 773529912, 1294757372, 1396182291,
   1695183700, 1986661051, 2177026350, 2456956037,
   2730485921, 2820302411, 3259730800, 3345764771,
   3516065817, 3600352804, 4094571909, 275423344,
   430227734, 506948616, 659060556, 883997877,
   958139571, 1322822218, 1537002063, 1747873779,
   1955562222, 2024104815, 2227730452, 2361852424,
   2428436474, 2756734187, 3204031479, 3329325298]

/-- Working state of the SHA-256 compression function: eight 32-bit words. -/
structure Sha256State where
  a : Nat
  b : Nat
  c : Nat
  d : Nat
  e : Nat
  f : Nat
  g : Nat
  h : Nat
deriving Repr, DecidableEq

/-- The SHA-256 initial hash value. -/
def sha256Init : Sha256State :=
  ⟨1779033703, 3144134277, 1013904242, 2773480762,
   1359893119, 2600822924, 528734635, 1541459225⟩

/-- One SHA-256 round, consuming a round constant paired with a schedule word. -/
def sha256Round (st : Sha256State) (kw : Nat × Nat) : Sha256State :=
  let t1 := add32 st.h (add32 (bsig1 st.e) (add32 (ch32 st.e st.f st.g) (add32 kw.1 kw.2)))
  let t2 := add32 (bsig0 st.a) (maj32 st.a st.b st.c)
  ⟨add32 t1 t2, st.a, st.b, st.c, add32 st.d t1, st.e, st.f, st.g⟩

/-- Big-endian 32-bit words from a byte list (complete 4-byte groups). -/
def bytesToWords : List Nat → List Nat
  | b0 :: b1 :: b2 :: b3 :: rest =>
      (((b0 * 256 + b1) * 256 + b2) * 256 + b3) :: bytesToWords rest
  | _ => []

/-- Extend the 16 message words to 64, building the list newest-first. -/
def sha256SchedAux : Nat → List Nat → List Nat
  | 0, acc => acc
  | n + 1, acc =>
      let w := add32 (add32 (ssig1 (acc.getD 1 0)) (acc.getD 6 0))
                     (add32 (ssig0 (acc.getD 14 0)) (acc.getD 15 0))
      sha256SchedAux n (w :: acc)

/-- The 64-word SHA-256 message schedule of one 64-byte block. -/
def sha256Schedule (block : List Nat) : List Nat :=
  (sha256SchedAux 48 (bytesToWords block).reverse).reverse

/-- SHA-256 compression of one 64-byte block into the running state. -/
def sha256Compress (st : Sha256State) (block : List Nat) : Sha256State :=
  let t := (sha256K.zip (sha256Schedule block)).foldl sha256Round st
  ⟨add32 st.a t.a, add32 st.b t.b, add32 st.c t.c, add32 st.d t.d,
   add32 st.e t.e, add32 st.f t.f, add32 st.g t.g, add32 st.h t.h⟩

/-- `n` as `k` big-endian bytes. -/
def natToBytesBE : Nat → Nat → List Nat
  | 0, _ => []
  | k + 1, n => natToBytesBE k (n >>> 8) ++ [n % 256]

/-- SHA-256 padding: `0x80`, zeros, then the 64-bit big-endian bit length. -/
def sha256Pad (msg : List Nat) : List Nat :=
  let zeros := (64 + 56 - ((msg.length + 1) % 64)) % 64
  msg ++ 0x80 :: List.replicate zeros 0 ++ natToBytesBE 8 (msg.length * 8)

/-- Split into 64-byte blocks, fuelled by the list length. -/
def chunks64Aux : Nat → List Nat → List (List Nat)
  | 0, _ => []
  | _, [] => []
  | fuel + 1, l => l.take 64 :: chunks64Aux fuel (l.drop 64)

/-- Split a byte list into 64-byte blocks. -/
def chunks64 (l : List Nat) : List (List Nat) := chunks64Aux l.length l

/-- A 32-bit word as four big-endian bytes. -/
def wordBE (w : Nat) : List Nat :=
  [(w >>> 24) % 256, (w >>> 16) % 256, (w >>> 8) % 256, w % 256]

/-- The 32 digest bytes of a final SHA-256 state. -/
def stateBytes (st : Sha256State) : List Nat :=
  wordBE st.a ++ wordBE st.b ++ wordBE st.c ++ wordBE st.d ++
  wordBE st.e ++ wordBE st.f ++ wordBE st.g ++ wordBE st.h

/-- SHA-256 of a byte list. -/
def sha256 (msg : List Nat) : List Nat :=
  stateBytes ((chunks64 (sha256Pad msg)).foldl sha256Compress sha256Init)

/-- HMAC-SHA256 (`crypto.createHmac('sha256', key)`), block size 64 bytes. -/
def hmacSha256 (key msg : List Nat) : List Nat :=
  let k0 := if 64 < key.length then sha256 key else key
  let k := k0 ++ List.replicate (64 - k0.length) 0
  sha256 (k.map (Nat.xor 0x5c) ++ sha256 (k.map (Nat.xor 0x36) ++ msg))

/-- Lowercase hex digit for `n < 16`. -/
def hexDigitChar (n : Nat) : Char :=
  Char.ofNat (if n < 10 then 48 + n else 87 + n)

/-- The two hex characters of one byte. -/
def byteHexChars (b : Nat) : List Char :=
  [hexDigitChar (b / 16), hexDigitChar (b % 16)]

/-- Lowercase hex encoding of a byte list (Node `.digest('hex')`). -/
def hexEncode (bs : List Nat) : String :=
  String.mk (bs.flatMap byteHexChars)

/-- Value of one hex character, if it is one. -/
def hexVal (c : Char) : Option Nat :=
  let n := c.toNat
  if 48 ≤ n ∧ n ≤ 57 then some (n - 48)
  else if 97 ≤ n ∧ n ≤ 102 then some (n - 87)
  else if 65 ≤ n ∧ n ≤ 70 then some (n - 55)
  else none

/-- Node `Buffer.from(s, 'hex')`: decode complete hex pairs, stopping at the
first character that is not a hex digit (and dropping an odd trailing digit). -/
def hexDecode : List Char → List Nat
  | c1 :: c2 :: rest =>
      match hexVal c1, hexVal c2 with
      | some hi, some lo => (16 * hi + lo) :: hexDecode rest
      | _, _ => []
  | _ => []

/-- UTF-8 bytes of one character. -/
def utf8Char (c : Char) : List Nat :=
  let n := c.toNat
  if n < 128 then [n]
  else if n < 2048 then
    [192 + n / 64, 128 + n % 64]
  else if n < 65536 then
    [224 + n / 4096, 128 + n / 64 % 64, 128 + n % 64]
  else
    [240 + n / 262144, 128 + n / 4096 % 64, 128 + n / 64 % 64, 128 + n % 64]

/-- UTF-8 encoding of a string (Node's default key/update encoding). -/
def utf8Encode (s : String) : List Nat :=
  s.data.flatMap utf8Char

/-! ## `src/utils/security.ts` — `verifyRequestSignature` -/

/-- An HTTP header value as express delivers it: a single string or a list
(`string | string[]`), when present at all. -/
abbrev HeaderValue : Type := String ⊕ List String

/-- `typeof signatureHeader === 'string' ? signatureHeader : undefined`. -/
def headerString : Option HeaderValue → Option String
  | some (Sum.inl s) => some s
  | _ => none

/-- JS `s.startsWith(p)` on code units (our strings are ASCII). -/
def startsWith7 (s p : String) : Bool := p.data.isPrefixOf s.data

/-- JS `s.slice(n)` on code units. -/
def sliceFrom (s : String) (n : Nat) : String := String.mk (s.data.drop n)

/-- An inbound POST request as `verifyRequestSignature` sees it: the
`x-hub-signature-256` header, the raw body bytes captured by the
`express.json` verify hook (when present), and the parsed JSON body of
whatever shape `β` the route produced. -/
structure WebhookRequest (β : Type) where
  signatureHeader : Option HeaderValue
  rawBody : Option (List Nat)
  body : β

/-- Line 39 of security.ts: the payload the HMAC is computed over — the
captured raw bytes when present, the re-serialized parsed body otherwise. -/
def hmacPayload {β : Type} (serializeBody : β → List Nat)
    (req : WebhookRequest β) : List Nat :=
  match req.rawBody with
  | some b => b
  | none => serializeBody req.body

/-- `verifyRequestSignature` of `src/utils/security.ts`, line for line.
`appSecret` is `process.env.APP_SECRET` (possibly unset or empty, both
falsy); `serializeBody` is `JSON.stringify` for the body type `β`, used
only on the `rawBody`-absent fallback path. Every return path of the
source yields a boolean, so the embedding is a total `Bool` function. -/
def verifyRequestSignature {β : Type} (appSecret : Option String)
    (serializeBody : β → List Nat) (req : WebhookRequest β) : Bool :=
  match headerString req.signatureHeader with
  | none => false
  | some signature =>
    if signature = "" then false
    else
      match appSecret with
      | none => false
      | some secret =>
        if secret = "" then false
        else if ¬ startsWith7 signature "sha256=" then false
        else
          let signatureHash := sliceFrom signature 7
          if signatureHash = "" then false
          else
            let expectedHash :=
              hexEncode (hmacSha256 (utf8Encode secret) (hmacPayload serializeBody req))
            let signatureBuffer := hexDecode signatureHash.data
            let expectedBuffer := hexDecode expectedHash.data
            signatureBuffer.length == expectedBuffer.length &&
              signatureBuffer == expectedBuffer

/-! ## `src/services/conversationalAgentService.ts` -/

/-- `createSessionId` (line 13): a fixed-prefix concatenation on the mobile
number. -/
def createSessionId (mobileNumber : String) : String :=
  "meta-whatsapp-" ++ mobileNumber

/-- The session key `detectIntent` (line 43) passes into the session path of
every agent request: `createSessionId(mobileNumber)`. The query text plays
no part in it. -/
def detectIntentSessionKey (_query mobileNumber : String) : String :=
  createSessionId mobileNumber

/-- A Dialogflow CX `ResponseMessage.Text`: `text` is a string array, itself
possibly absent. -/
structure AgentText where
  text : Option (List String)

/-- A Dialogflow CX response message: `msg.text` may be absent. -/
structure ResponseMessage where
  text : Option AgentText

/-- `response.queryResult`, as far as reply extraction reads it. -/
structure QueryResult where
  responseMessages : Option (List ResponseMessage)

/-- A `detectIntent` response: `queryResult` may be absent. -/
structure DetectIntentResponse where
  queryResult : Option QueryResult

/-- `responseMessages || []` of `detectIntent` (line 74). -/
def responseMessagesOf (response : DetectIntentResponse) : List ResponseMessage :=
  match response.queryResult with
  | some q => q.responseMessages.getD []
  | none => []

/-- Lines 77-81 of `detectIntent`: keep the messages whose text array exists
and is non-empty, take element 0 of each, drop the falsy ones (the JS
`.map` to `msg.text?.text?.[0]` followed by `.filter((text) => text)`),
join with newlines. -/
def combineResponseText (responseMessages : List ResponseMessage) : String :=
  String.intercalate "\n"
    ((((responseMessages.filter fun msg =>
          match msg.text with
          | some t =>
            match t.text with
            | some l => 0 < l.length
            | none => false
          | none => false).map fun msg =>
            (msg.text.bind AgentText.text).bind List.head?).filterMap id).filter
      fun s => s ≠ "")

/-- The fixed clarification-request fallback sentence of `detectIntent`
(line 85). -/
def agentFallbackText : String :=
  "I'm sorry, I didn't understand that. Could you please rephrase?"

/-- Lines 74-98 of `detectIntent`: the reply resolved from an agent
response — the combined text, or the fallback when that is empty. -/
def detectIntentReply (response : DetectIntentResponse) : String :=
  let responseText := combineResponseText (responseMessagesOf response)
  if responseText = "" then agentFallbackText else responseText

/-! ## `src/controllers/webhookController.ts` — GET `verifyWebhook` -/

/-- An express query parameter: absent, a string, or a repeated-key list. -/
abbrev QueryValue : Type := Option HeaderValue

/-- JS truthiness of a query parameter: an empty string is falsy, an array is
an object and always truthy. -/
def truthyQV : QueryValue → Bool
  | none => false
  | some (Sum.inl s) => s ≠ ""
  | some (Sum.inr _) => true

/-- The three `hub.*` parameters of the GET handshake. -/
structure VerifyQuery where
  mode : QueryValue
  token : QueryValue
  challenge : QueryValue

/-- An HTTP response: status code, and the body when one is `send`-ed
explicitly (`sendStatus` bodies are left as `none`). -/
abbrev HttpResponse : Type := Nat × Option QueryValue

/-- `verifyWebhook` (lines 17-41): `mode && token` truthy, then
`mode === "subscribe" && token === process.env.WEBHOOK_VERIFICATION_TOKEN`
(a string never strict-equals an unset variable) decides 200-with-challenge
against 403; otherwise 400. -/
def verifyWebhook (verificationToken : Option String) (q : VerifyQuery) :
    HttpResponse :=
  if truthyQV q.mode && truthyQV q.token then
    if q.mode == some (Sum.inl "subscribe") &&
        (match q.token, verificationToken with
         | some (Sum.inl t), some c => t = c
         | _, _ => false) then
      (200, some q.challenge)
    else
      (403, none)
  else
    (400, none)

/-! ## External services and the event trace

Dialogflow CX, Gemini and the WhatsApp Graph API are modelled as an
environment of fallible calls; a trace records every outbound invocation the
pipeline makes, so that "service X was (never) invoked" is a statement about
the trace. -/

/-- Media bytes plus the MIME type the metadata lookup reported
(`downloadMedia` of `src/services/whatsappService.ts`, lines 31-44). -/
structure MediaBlob where
  data : List Nat
  mimeType : String

/-- One outbound invocation made while processing a delivery. -/
inductive Event where
  | send (toNumber msg : String)
  | detect (query mobile : String)
  | download (mediaId : String)
  | analyzeAudioEv (mime : String)
  | analyzeImageEv (mime prompt : String)
  | analyzeDocumentEv (mime filename : String)
  | analyzeVideoEv (mime prompt : String)
deriving DecidableEq, Repr

/-- The behaviour of the external services during one delivery: each call
either returns a value or throws. -/
structure Env where
  detectIntent : String → String → Except Unit String
  downloadMedia : String → Except Unit MediaBlob
  analyzeAudio : List Nat → String → Except Unit String
  analyzeImage : List Nat → String → String → Except Unit String
  analyzeDocument : List Nat → String → String → Except Unit String
  generateVideoContent : String → List Nat → String → Except Unit String
  sendTextMessage : String → String → Except Unit Unit

/-- A pipeline step: the invocations it made, and its value or thrown error. -/
abbrev Step (α : Type) : Type := List Event × Except Unit α

/-- Sequencing of steps: a thrown error skips the continuation, the trace of
invocations already made persists. -/
def stepBind {α β : Type} (x : Step α) (f : α → Step β) : Step β :=
  match x with
  | (tr, Except.error e) => (tr, Except.error e)
  | (tr, Except.ok a) =>
    match f a with
    | (tr2, r) => (tr ++ tr2, r)

/-- `await detectIntent(query, mobile)` as a traced step. -/
def callDetectIntent (env : Env) (query mobile : String) : Step String :=
  ([Event.detect query mobile], env.detectIntent query mobile)

/-- `await sendTextMessage(to, msg)` as a traced step. -/
def callSendText (env : Env) (toNumber msg : String) : Step Unit :=
  ([Event.send toNumber msg], env.sendTextMessage toNumber msg)

/-- `await downloadMedia(mediaId)` as a traced step. -/
def callDownloadMedia (env : Env) (mediaId : String) : Step MediaBlob :=
  ([Event.download mediaId], env.downloadMedia mediaId)

/-- `await analyzeAudio(data, mime)` as a traced step. -/
def callAnalyzeAudio (env : Env) (data : List Nat) (mime : String) : Step String :=
  ([Event.analyzeAudioEv mime], env.analyzeAudio data mime)

/-- `await analyzeImage(data, mime, prompt)` as a traced step. -/
def callAnalyzeImage (env : Env) (data : List Nat) (mime prompt : String) :
    Step String :=
  ([Event.analyzeImageEv mime prompt], env.analyzeImage data mime prompt)

/-- `await analyzeDocument(data, mime, filename)` as a traced step. -/
def callAnalyzeDocument (env : Env) (data : List Nat) (mime filename : String) :
    Step String :=
  ([Event.analyzeDocumentEv mime filename], env.analyzeDocument data mime filename)

/-- The inlined Gemini video call of `handleVideoMessage` as a traced step. -/
def callGenerateVideo (env : Env) (prompt : String) (data : List Nat)
    (mime : String) : Step String :=
  ([Event.analyzeVideoEv mime prompt], env.generateVideoContent prompt data mime)

/-- The `try { … } catch { … sendTextMessage(from, apology) … }` shape shared
by all five handlers of `src/services/messageHandler.ts`: on success pass the
result through; on a thrown error keep the trace made so far, attempt the
apology send, and return the apology text (or rethrow the failed send). -/
def withApology (env : Env) (toNumber apology : String) (x : Step String) : Step String :=
  match x with
  | (tr, Except.ok r) => (tr, Except.ok r)
  | (tr, Except.error _) =>
    (tr ++ [Event.send toNumber apology],
     match env.sendTextMessage toNumber apology with
     | Except.ok _ => Except.ok apology
     | Except.error e => Except.error e)

/-! ## `src/services/messageHandler.ts` — the five per-type handlers -/

/-- The try-block of `handleTextMessage`: agent, then reply. -/
def handleTextMessageTry (env : Env) (from_ text : String) : Step String :=
  stepBind (callDetectIntent env text from_) fun response =>
    stepBind (callSendText env from_ response) fun _ =>
      ([], Except.ok response)

/-- `handleTextMessage` (lines 17-38): agent, reply; apology on error. -/
def handleTextMessage (env : Env) (from_ _messageId text : String) : Step String :=
  withApology env from_ "Sorry, I encountered an error processing your message."
    (handleTextMessageTry env from_ text)

/-- `handleAudioMessage` (lines 48-84): download, analyze with the MIME type
the download reported, agent, reply; apology on error. The inbound
`mimeType` argument is logged only. -/
def handleAudioMessageTry (env : Env) (from_ audioId : String) : Step String :=
  stepBind (callDownloadMedia env audioId) fun blob =>
    stepBind (callAnalyzeAudio env blob.data blob.mimeType) fun geminiAnalysis =>
      stepBind (callDetectIntent env geminiAnalysis from_) fun response =>
        stepBind (callSendText env from_ response) fun _ =>
          ([], Except.ok response)

/-- `handleAudioMessage`, continued: apology wrapper around the try-block. -/
def handleAudioMessage (env : Env) (from_ _messageId audioId _mimeType : String) :
    Step String :=
  withApology env from_
    "Sorry, I encountered an error processing your audio message."
    (handleAudioMessageTry env from_ audioId)

/-- The caption-dependent image prompt of `handleImageMessage` (lines
112-114); a missing or empty caption is falsy. -/
def imagePrompt (caption : Option String) : String :=
  match caption with
  | some c =>
    if c = "" then
      "Analyze this image and provide a detailed description of what you see."
    else
      "The user sent this image with the caption: \"" ++ c ++
        "\". Analyze the image and describe what you see."
  | none =>
    "Analyze this image and provide a detailed description of what you see."

/-- The try-block of `handleImageMessage`. -/
def handleImageMessageTry (env : Env) (from_ imageId : String)
    (caption : Option String) : Step String :=
  stepBind (callDownloadMedia env imageId) fun blob =>
    stepBind (callAnalyzeImage env blob.data blob.mimeType (imagePrompt caption))
      fun geminiAnalysis =>
        stepBind (callDetectIntent env geminiAnalysis from_) fun response =>
          stepBind (callSendText env from_ response) fun _ =>
            ([], Except.ok response)

/-- `handleImageMessage` (lines 94-134). -/
def handleImageMessage (env : Env) (from_ _messageId imageId : String)
    (caption : Option String) : Step String :=
  withApology env from_ "Sorry, I encountered an error processing your image."
    (handleImageMessageTry env from_ imageId caption)

/-- `handleDocumentMessage` (lines 145-194): the analysis receives the MIME
type the download reported; the inbound `mimeType` argument is logged only. -/
def handleDocumentMessageTry (env : Env) (from_ documentId filename : String) :
    Step String :=
  stepBind (callDownloadMedia env documentId) fun blob =>
    stepBind (callAnalyzeDocument env blob.data blob.mimeType filename)
      fun geminiSummary =>
        stepBind (callDetectIntent env geminiSummary from_) fun response =>
          stepBind (callSendText env from_ response) fun _ =>
            ([], Except.ok response)

/-- `handleDocumentMessage`, continued: apology wrapper around the try-block. -/
def handleDocumentMessage (env : Env)
    (from_ _messageId documentId filename _mimeType : String) : Step String :=
  withApology env from_
    "Sorry, I encountered an error processing your document."
    (handleDocumentMessageTry env from_ documentId filename)

/-- The caption-dependent video prompt of `handleVideoMessage` (lines
223-225). -/
def videoPrompt (caption : Option String) : String :=
  match caption with
  | some c =>
    if c = "" then
      "Analyze this video and provide a summary of its content."
    else
      "The user sent this video with the caption: \"" ++ c ++
        "\". Analyze the video and respond accordingly."
  | none =>
    "Analyze this video and provide a summary of its content."

/-- `handleVideoMessage` (lines 204-257): the inlined Gemini call receives
the MIME type the download reported. -/
def handleVideoMessageTry (env : Env) (from_ videoId : String)
    (caption : Option String) : Step String :=
  stepBind (callDownloadMedia env videoId) fun blob =>
    stepBind (callGenerateVideo env (videoPrompt caption) blob.data blob.mimeType)
      fun geminiAnalysis =>
        stepBind (callDetectIntent env geminiAnalysis from_) fun response =>
          stepBind (callSendText env from_ response) fun _ =>
            ([], Except.ok response)

/-- `handleVideoMessage`, continued: apology wrapper around the try-block. -/
def handleVideoMessage (env : Env) (from_ _messageId videoId : String)
    (caption : Option String) : Step String :=
  withApology env from_ "Sorry, I encountered an error processing your video."
    (handleVideoMessageTry env from_ videoId caption)

/-! ## `src/controllers/webhookController.ts` — POST `handleWebhook` -/

/-- `message.text`. -/
structure TextPayload where
  body : String
deriving DecidableEq

/-- `message.audio`. -/
structure AudioPayload where
  id : String
  mime_type : String
deriving DecidableEq

/-- `message.image`. -/
structure ImagePayload where
  id : String
  caption : Option String
deriving DecidableEq

/-- `message.document`. -/
structure DocumentPayload where
  id : String
  filename : String
  mime_type : String
deriving DecidableEq

/-- `message.video`. -/
structure VideoPayload where
  id : String
  caption : Option String
deriving DecidableEq

/-- An inbound message: sender, id, discriminator `type`, and the per-type
payload objects, each possibly absent. (`from` is a Lean keyword, hence
`from_`.) -/
structure Message where
  from_ : String
  id : String
  type : String
  text : Option TextPayload
  audio : Option AudioPayload
  image : Option ImagePayload
  document : Option DocumentPayload
  video : Option VideoPayload
deriving DecidableEq

/-- `change.value`: the messages and statuses arrays, each possibly absent. -/
structure ChangeValue where
  messages : Option (List Message)
  statuses : Option (List String)
deriving DecidableEq

/-- One element of `entry.changes`. -/
structure Change where
  value : ChangeValue
deriving DecidableEq

/-- One element of `body.entry`. -/
structure Entry where
  changes : Option (List Change)
deriving DecidableEq

/-- The parsed POST body: discriminator `object` and the entry array. -/
structure WebhookBody where
  object : Option String
  entry : Option (List Entry)
deriving DecidableEq

/-- Lines 88-152: the per-message `try { switch … } catch { log }`. A known
`type` whose payload object is absent throws on the property access (for
example `message.text.body`) before any call is made, and the catch only
logs, so the trace is empty. An unknown `type` takes the `default` branch
and sends the fixed unsupported-type apology. Whatever the handler or the
send throws is caught and logged, keeping the invocations made so far. -/
def processMessage (env : Env) (message : Message) : List Event :=
  match message.type with
  | "text" =>
    match message.text with
    | none => []
    | some p => (handleTextMessage env message.from_ message.id p.body).1
  | "audio" =>
    match message.audio with
    | none => []
    | some p => (handleAudioMessage env message.from_ message.id p.id p.mime_type).1
  | "image" =>
    match message.image with
    | none => []
    | some p => (handleImageMessage env message.from_ message.id p.id p.caption).1
  | "document" =>
    match message.document with
    | none => []
    | some p =>
      (handleDocumentMessage env message.from_ message.id p.id p.filename
        p.mime_type).1
  | "video" =>
    match message.video with
    | none => []
    | some p => (handleVideoMessage env message.from_ message.id p.id p.caption).1
  | t =>
    [Event.send message.from_ ("Sorry, I cannot process " ++ t ++ " messages yet.")]

/-- The messages of a delivery, in dispatch order: `body.entry?.forEach`,
`entry.changes?.forEach`, `value.messages` when present. -/
def messagesOf (body : WebhookBody) : List Message :=
  (body.entry.getD []).flatMap fun entry =>
    (entry.changes.getD []).flatMap fun change =>
      change.value.messages.getD []

/-- `handleWebhook` (lines 47-170): verify the signature (else 401); then
classify on `body.object` — the expected literal gives the per-message
dispatch and an unconditional `200 EVENT_RECEIVED`, anything else a 404
with no dispatch. The response never depends on per-message outcomes. -/
def handleWebhook (appSecret : Option String)
    (serializeBody : WebhookBody → List Nat) (env : Env)
    (req : WebhookRequest WebhookBody) : (Nat × Option String) × List Event :=
  if ¬ verifyRequestSignature appSecret serializeBody req then
    ((401, none), [])
  else if req.body.object = some "whatsapp_business_account" then
    ((200, some "EVENT_RECEIVED"), (messagesOf req.body).flatMap (processMessage env))
  else
    ((404, none), [])

/-! ## Supporting lemmas -/

theorem wordBE_length (w : Nat) : (wordBE w).length = 4 := rfl

theorem wordBE_lt (w : Nat) : ∀ b ∈ wordBE w, b < 256 := by
  intro b hb
  simp only [wordBE, List.mem_cons, List.not_mem_nil, or_false] at hb
  rcases hb with h | h | h | h <;> subst h <;> exact Nat.mod_lt _ (by norm_num)

theorem stateBytes_length (st : Sha256State) : (stateBytes st).length = 32 := by
  simp [stateBytes, wordBE]

theorem stateBytes_lt (st : Sha256State) : ∀ b ∈ stateBytes st, b < 256 := by
  intro b hb
  simp only [stateBytes, List.mem_append] at hb
  rcases hb with ((((((h | h) | h) | h) | h) | h) | h) | h <;> exact wordBE_lt _ _ h

theorem sha256_length (msg : List Nat) : (sha256 msg).length = 32 :=
  stateBytes_length _

theorem sha256_lt (msg : List Nat) : ∀ b ∈ sha256 msg, b < 256 :=
  stateBytes_lt _

theorem hmacSha256_length (key msg : List Nat) :
    (hmacSha256 key msg).length = 32 :=
  sha256_length _

theorem hmacSha256_lt (key msg : List Nat) : ∀ b ∈ hmacSha256 key msg, b < 256 :=
  sha256_lt _

theorem hmacSha256_ne_nil (key msg : List Nat) : hmacSha256 key msg ≠ [] := by
  intro h
  have := hmacSha256_length key msg
  rw [h] at this
  simp at this

theorem hexVal_hexDigitChar {n : Nat} (h : n < 16) :
    hexVal (hexDigitChar n) = some n := by
  interval_cases n <;> rfl

theorem hexDecode_byteHexChars {b : Nat} (hb : b < 256) (rest : List Char) :
    hexDecode (byteHexChars b ++ rest) = b :: hexDecode rest := by
  have h1 : b / 16 < 16 := by omega
  have h2 : b % 16 < 16 := Nat.mod_lt _ (by norm_num)
  simp only [byteHexChars, List.cons_append, List.nil_append, hexDecode,
    hexVal_hexDigitChar h1, hexVal_hexDigitChar h2]
  congr 1
  omega

theorem hexDecode_hexEncode {l : List Nat} (h : ∀ b ∈ l, b < 256) :
    hexDecode (hexEncode l).data = l := by
  induction l with
  | nil => rfl
  | cons b rest ih =>
    have hb : b < 256 := h b (List.mem_cons_self _ _)
    have hrest : ∀ x ∈ rest, x < 256 := fun x hx => h x (List.mem_cons_of_mem _ hx)
    show hexDecode ((b :: rest).flatMap byteHexChars) = b :: rest
    rw [List.flatMap_cons, hexDecode_byteHexChars hb]
    exact congrArg _ (ih hrest)

theorem isPrefixOf_append (p t : List Char) : p.isPrefixOf (p ++ t) = true := by
  induction p with
  | nil => simp [List.isPrefixOf]
  | cons c cs ih => simp [List.isPrefixOf, ih]

theorem append_ne_empty (s : String) : "sha256=" ++ s ≠ "" := by
  intro h
  have : ("sha256=" ++ s).data = ("" : String).data := by rw [h]
  simp [String.data_append] at this

theorem sliceFrom_sha256_append (s : String) :
    sliceFrom ("sha256=" ++ s) 7 = s := by
  show String.mk ((("sha256=").data ++ s.data).drop 7) = s
  rw [show (7 : Nat) = ("sha256=").data.length from rfl, List.drop_left]

/-- Master characterization of `verifyRequestSignature`. -/
theorem verifyRequestSignature_eq_true_iff {β : Type} (appSecret : Option String)
    (serializeBody : β → List Nat) (req : WebhookRequest β) :
    verifyRequestSignature appSecret serializeBody req = true ↔
      ∃ signature, headerString req.signatureHeader = some signature ∧
        signature ≠ "" ∧
        ∃ secret, appSecret = some secret ∧ secret ≠ "" ∧
          startsWith7 signature "sha256=" = true ∧
          sliceFrom signature 7 ≠ "" ∧
          hexDecode (sliceFrom signature 7).data =
            hmacSha256 (utf8Encode secret) (hmacPayload serializeBody req) := by
  unfold verifyRequestSignature
  split
  · rename_i hh
    simp [hh]
  · rename_i signature hh
    rw [hh]
    simp only [Option.some.injEq]
    by_cases hsig : signature = ""
    · simp [hsig]
    · rw [if_neg hsig]
      split
      · simp
      · rename_i secret
        simp only [Option.some.injEq]
        by_cases hse : secret = ""
        · simp [hse, hsig]
        · rw [if_neg hse]
          by_cases hpre : startsWith7 signature "sha256=" = true
          · rw [if_neg (by simp [hpre])]
            by_cases hha : sliceFrom signature 7 = ""
            · rw [if_pos hha]
              simp [hsig, hse, hha]
            · rw [if_neg hha]
              have hexp2 : hexDecode (hexEncode (hmacSha256 (utf8Encode secret)
                  (hmacPayload serializeBody req))).data =
                  hmacSha256 (utf8Encode secret) (hmacPayload serializeBody req) :=
                hexDecode_hexEncode (hmacSha256_lt _ _)
              rw [hexp2, Bool.and_eq_true, beq_iff_eq, beq_iff_eq]
              constructor
              · rintro ⟨-, heq⟩
                exact ⟨signature, rfl, hsig, secret, rfl, hse, hpre, hha, heq⟩
              · rintro ⟨sg, rfl, -, sc, hsc, -, -, -, heq⟩
                cases hsc
                exact ⟨by rw [heq], heq⟩
          · rw [if_pos (by simpa using hpre)]
            constructor
            · intro h; cases h
            · rintro ⟨sg, rfl, -, sc, hsc, -, hpre2, -⟩
              cases hsc
              exact absurd hpre2 hpre

/-- Signature verification is extensional in the header and the payload: the
parsed body and the serializer enter only through `hmacPayload`. -/
theorem verifyRequestSignature_ext {β γ : Type} (appSecret : Option String)
    (s1 : β → List Nat) (s2 : γ → List Nat) (r1 : WebhookRequest β)
    (r2 : WebhookRequest γ) (hh : r1.signatureHeader = r2.signatureHeader)
    (hp : hmacPayload s1 r1 = hmacPayload s2 r2) :
    verifyRequestSignature appSecret s1 r1 =
      verifyRequestSignature appSecret s2 r2 := by
  unfold verifyRequestSignature
  simp only [hh, hp]

theorem startsWith7_sha256_append (s : String) :
    startsWith7 ("sha256=" ++ s) "sha256=" = true := by
  show ("sha256=").data.isPrefixOf (("sha256=").data ++ s.data) = true
  exact isPrefixOf_append _ _

/-! ## Concrete material for the witnesses

`exampleRaw1` and `exampleRaw2` are the bytes of two JSON texts that parse
to the same value — one has a space after the colon — and `exampleHex1` is
the hex HMAC-SHA256 of `exampleRaw1` under `exampleSecret`, exactly what
Meta would put in the `x-hub-signature-256` header. -/

def exampleSecret : String := "topsecret"

def exampleRaw1 : List Nat := [123, 34, 97, 34, 58, 49, 125]

def exampleRaw2 : List Nat := [123, 34, 97, 34, 58, 32, 49, 125]

def exampleHex1 : String :=
  "bf1e6501b7fa928ec2391fea9dd90af3c9ad1b7b1ef6ff319c25940cec746bf8"

def exampleHeader : Option HeaderValue := some (Sum.inl ("sha256=" ++ exampleHex1))

def exampleBody0 : WebhookBody := ⟨none, none⟩

def exampleSerialize : WebhookBody → List Nat := fun _ => []

/-! ## Claim C1 -/

/-- **C1.** For every inbound POST whose raw byte stream was captured
(`rawBody = some raw`, which the `express.json` verify hook establishes for
every delivery), the verifier (i) is independent of the parsed JSON body and
of the serializer — it never hashes a re-serialization — and (ii) with a
well-formed header and configured secret returns `true` iff the hex-decoded
header hash equals the HMAC-SHA256 of exactly those raw bytes. -/
theorem c1_signature_over_raw_bytes {β γ : Type} (secret : String)
    (hsecret : secret ≠ "") (req : WebhookRequest β) (raw : List Nat)
    (hraw : req.rawBody = some raw) (hashStr : String)
    (hhdr : req.signatureHeader = some (Sum.inl ("sha256=" ++ hashStr))) :
    (∀ (serializeBody : β → List Nat) (serializeBody' : γ → List Nat) (body' : γ),
        verifyRequestSignature (some secret) serializeBody'
            ⟨req.signatureHeader, req.rawBody, body'⟩ =
          verifyRequestSignature (some secret) serializeBody req)
    ∧ ∀ serializeBody : β → List Nat,
        (verifyRequestSignature (some secret) serializeBody req = true ↔
          hexDecode hashStr.data = hmacSha256 (utf8Encode secret) raw) := by
  constructor
  · intro serializeBody serializeBody' body'
    exact verifyRequestSignature_ext (some secret) serializeBody' serializeBody
      ⟨req.signatureHeader, req.rawBody, body'⟩ req rfl
      (by simp [hmacPayload, hraw])
  · intro serializeBody
    have hpay : hmacPayload serializeBody req = raw := by simp [hmacPayload, hraw]
    rw [verifyRequestSignature_eq_true_iff]
    constructor
    · rintro ⟨sg, hsg, -, sc, hsc, -, -, -, heq⟩
      rw [hhdr] at hsg
      cases hsc
      simp only [headerString, Option.some.injEq] at hsg
      subst hsg
      rwa [sliceFrom_sha256_append, hpay] at heq
    · intro heq
      refine ⟨"sha256=" ++ hashStr, by rw [hhdr]; rfl, append_ne_empty _,
        secret, rfl, hsecret, startsWith7_sha256_append _, ?_, ?_⟩
      · rw [sliceFrom_sha256_append]
        intro h0
        rw [h0] at heq
        exact hmacSha256_ne_nil _ _ (heq.symm.trans rfl)
      · rw [sliceFrom_sha256_append, hpay]
        exact heq

/-- **C1 witness.** The header carries the HMAC of the bytes of
`{"a":1}`; the request with exactly those raw bytes verifies, and the
request whose raw bytes spell `{"a": 1}` — the same JSON value, one more
byte — does not, although the parsed body is identical. -/
theorem c1_signature_over_raw_bytes_witness :
    verifyRequestSignature (some exampleSecret) exampleSerialize
        ⟨exampleHeader, some exampleRaw1, exampleBody0⟩ = true
    ∧ verifyRequestSignature (some exampleSecret) exampleSerialize
        ⟨exampleHeader, some exampleRaw2, exampleBody0⟩ = false := by
  constructor
  · exact ((c1_signature_over_raw_bytes (γ := Unit) exampleSecret (by decide)
      ⟨exampleHeader, some exampleRaw1, exampleBody0⟩ exampleRaw1 rfl
      exampleHex1 rfl).2 exampleSerialize).mpr (by decide)
  · have h := (c1_signature_over_raw_bytes (γ := Unit) exampleSecret (by decide)
      ⟨exampleHeader, some exampleRaw2, exampleBody0⟩ exampleRaw2 rfl
      exampleHex1 rfl).2 exampleSerialize
    exact Bool.eq_false_iff.mpr fun hv => absurd (h.mp hv) (by decide)

/-! ## Claim C2 -/

/-- **C2.** The verifier is a total boolean function of the request — the
embedding returns a `Bool` on every path, mirroring the source, which has
no throwing operation (`timingSafeEqual` is guarded by the length check) —
and each of the listed conditions forces `false`: missing (or non-string)
header, missing secret, header without the `sha256=` marker, empty hash
after the marker, decoded-hash length different from the 32-byte digest
length, and value mismatch. -/
theorem c2_verifier_false_cases {β : Type} (appSecret : Option String)
    (serializeBody : β → List Nat) (req : WebhookRequest β) :
    (headerString req.signatureHeader = none →
        verifyRequestSignature appSecret serializeBody req = false)
    ∧ (appSecret = none →
        verifyRequestSignature appSecret serializeBody req = false)
    ∧ (∀ signature, headerString req.signatureHeader = some signature →
        startsWith7 signature "sha256=" = false →
        verifyRequestSignature appSecret serializeBody req = false)
    ∧ (∀ signature, headerString req.signatureHeader = some signature →
        sliceFrom signature 7 = "" →
        verifyRequestSignature appSecret serializeBody req = false)
    ∧ (∀ signature, headerString req.signatureHeader = some signature →
        (hexDecode (sliceFrom signature 7).data).length ≠ 32 →
        verifyRequestSignature appSecret serializeBody req = false)
    ∧ (∀ signature secret, headerString req.signatureHeader = some signature →
        appSecret = some secret →
        hexDecode (sliceFrom signature 7).data ≠
          hmacSha256 (utf8Encode secret) (hmacPayload serializeBody req) →
        verifyRequestSignature appSecret serializeBody req = false) := by
  have master := verifyRequestSignature_eq_true_iff appSecret serializeBody req
  refine ⟨?_, ?_, ?_, ?_, ?_, ?_⟩
  · intro h
    refine Bool.eq_false_iff.mpr fun hv => ?_
    obtain ⟨sg, hsg, -⟩ := master.mp hv
    rw [h] at hsg
    cases hsg
  · intro h
    refine Bool.eq_false_iff.mpr fun hv => ?_
    obtain ⟨-, -, -, sc, hsc, -⟩ := master.mp hv
    rw [h] at hsc
    cases hsc
  · intro signature hs h
    refine Bool.eq_false_iff.mpr fun hv => ?_
    obtain ⟨sg, hsg, -, -, -, -, hpre, -⟩ := master.mp hv
    rw [hs] at hsg
    cases hsg
    rw [h] at hpre
    cases hpre
  · intro signature hs h
    refine Bool.eq_false_iff.mpr fun hv => ?_
    obtain ⟨sg, hsg, -, -, -, -, -, hha, -⟩ := master.mp hv
    rw [hs] at hsg
    cases hsg
    exact hha h
  · intro signature hs h
    refine Bool.eq_false_iff.mpr fun hv => ?_
    obtain ⟨sg, hsg, -, sc, -, -, -, -, heq⟩ := master.mp hv
    rw [hs] at hsg
    cases hsg
    exact h (by rw [heq, hmacSha256_length])
  · intro signature secret hs hsec h
    refine Bool.eq_false_iff.mpr fun hv => ?_
    obtain ⟨sg, hsg, -, sc, hsc, -, -, -, heq⟩ := master.mp hv
    rw [hs] at hsg
    cases hsg
    rw [hsec] at hsc
    cases hsc
    exact h heq

/-- **C2 witness.** Each rejection condition exercised on a concrete
request: absent header, array (non-string) header, unset secret, `md5=`
marker, empty hash, four-hex-digit hash (length 2 ≠ 32), and a syntactically
valid but mismatching hash. -/
theorem c2_verifier_false_cases_witness :
    verifyRequestSignature (some "k") (fun _ : Unit => []) ⟨none, some [1], ()⟩ = false
    ∧ verifyRequestSignature (some "k") (fun _ : Unit => [])
        ⟨some (Sum.inr ["sha256=00"]), some [1], ()⟩ = false
    ∧ verifyRequestSignature none (fun _ : Unit => [])
        ⟨some (Sum.inl "sha256=00"), some [1], ()⟩ = false
    ∧ verifyRequestSignature (some "k") (fun _ : Unit => [])
        ⟨some (Sum.inl "md5=abcd"), some [1], ()⟩ = false
    ∧ verifyRequestSignature (some "k") (fun _ : Unit => [])
        ⟨some (Sum.inl "sha256="), some [1], ()⟩ = false
    ∧ verifyRequestSignature (some "k") (fun _ : Unit => [])
        ⟨some (Sum.inl "sha256=00ff"), some [1], ()⟩ = false
    ∧ verifyRequestSignature (some "k") (fun _ : Unit => [])
        ⟨some (Sum.inl ("sha256=" ++ String.mk (List.replicate 64 (Char.ofNat 48)))),
          some [1], ()⟩ = false := by
  refine ⟨?_, ?_, ?_, ?_, ?_, ?_, ?_⟩
  · exact (c2_verifier_false_cases _ _ _).1 rfl
  · exact (c2_verifier_false_cases _ _ _).1 rfl
  · exact (c2_verifier_false_cases _ _ _).2.1 rfl
  · exact (c2_verifier_false_cases _ _ _).2.2.1 "md5=abcd" rfl (by decide)
  · exact (c2_verifier_false_cases _ _ _).2.2.2.1 "sha256=" rfl (by decide)
  · exact (c2_verifier_false_cases _ _ _).2.2.2.2.1 "sha256=00ff" rfl (by decide)
  · exact (c2_verifier_false_cases _ _ _).2.2.2.2.2 _ "k" rfl rfl (by decide)

/-! ## Claim C8 -/

/-- **C8.** The session key passed to the agent is a pure deterministic
function of the sender identifier: it equals the fixed-prefix concatenation
for every query, is the same across invocations and deliveries, and two
distinct sender identifiers always yield distinct session keys. -/
theorem c8_session_key_pure :
    (∀ query mobileNumber, detectIntentSessionKey query mobileNumber =
        "meta-whatsapp-" ++ mobileNumber)
    ∧ (∀ q1 q2 m, detectIntentSessionKey q1 m = detectIntentSessionKey q2 m)
    ∧ (∀ m1 m2, createSessionId m1 = createSessionId m2 → m1 = m2)
    ∧ (∀ m1 m2, m1 ≠ m2 → createSessionId m1 ≠ createSessionId m2) := by
  have cancel : ∀ m1 m2 : String, createSessionId m1 = createSessionId m2 → m1 = m2 := by
    intro m1 m2 h
    have hd : ("meta-whatsapp-").data ++ m1.data = ("meta-whatsapp-").data ++ m2.data :=
      congrArg String.data h
    exact congrArg String.mk (List.append_cancel_left hd)
  exact ⟨fun _ _ => rfl, fun _ _ _ => rfl, cancel, fun m1 m2 hne h => hne (cancel _ _ h)⟩

/-- **C8 witness.** The key of a concrete sender, sameness across two
invocations with different queries, and distinctness for two distinct
senders (injectivity applied with its hypotheses discharged). -/
theorem c8_session_key_pure_witness :
    createSessionId "15551230001" = "meta-whatsapp-15551230001"
    ∧ detectIntentSessionKey "hello" "15551230001" =
        detectIntentSessionKey "goodbye" "15551230001"
    ∧ createSessionId "15551230001" ≠ createSessionId "15557770002" :=
  ⟨c8_session_key_pure.1 "hello" "15551230001",
   c8_session_key_pure.2.1 "hello" "goodbye" "15551230001",
   c8_session_key_pure.2.2.2 "15551230001" "15557770002" (by decide)⟩

/-! ## Claim C5 -/

/-- The GET response rule exactly as claim C5 states it: a parameter is
"present" when it appears in the query at all, a match means 200, a present
mismatch 403, an absent parameter 400 (statuses only). -/
def claimC5Status (verificationToken : Option String) (q : VerifyQuery) : Nat :=
  if q.mode.isSome && q.token.isSome then
    if q.mode == some (Sum.inl "subscribe") &&
        (match q.token, verificationToken with
         | some (Sum.inl t), some c => t = c
         | _, _ => false) then 200
    else 403
  else 400

/-- **C5 counterexample.** With `hub.mode=subscribe` and `hub.verify_token`
present with the empty value, the claim (token present but mismatching)
demands 403, but the code treats the falsy empty string as missing and
responds 400. -/
theorem c5_counterexample_empty_token :
    (verifyWebhook (some "tok")
        ⟨some (Sum.inl "subscribe"), some (Sum.inl ""), none⟩).1 = 400
    ∧ claimC5Status (some "tok")
        ⟨some (Sum.inl "subscribe"), some (Sum.inl ""), none⟩ = 403 := by
  exact ⟨rfl, rfl⟩

/-- A `hub.*` parameter counts as supplied for the GET handshake only when
truthy: a non-empty string, or a repeated (array) parameter — the latter is
supplied but can match nothing. -/
def suppliedQV : QueryValue → Bool
  | none => false
  | some (Sum.inl s) => s ≠ ""
  | some (Sum.inr _) => true

/-- The amended C5 response rule, phrased from the spec side: both
parameters supplied and the exact subscription handshake → 200 echoing the
challenge; both supplied otherwise → 403; anything absent or empty → 400. -/
def c5AmendedResponse (verificationToken : Option String) (q : VerifyQuery) :
    HttpResponse :=
  if suppliedQV q.mode && suppliedQV q.token then
    if (q.mode == some (Sum.inl "subscribe")) &&
        (match q.token with
         | some (Sum.inl t) => verificationToken == some t
         | _ => false) then
      (200, some q.challenge)
    else (403, none)
  else (400, none)

/-- **C5 (amended).** For every GET query and configured token the code
responds exactly per the amended rule; in particular a 200 carries the
`hub.challenge` parameter verbatim as its body, a supplied-but-mismatching
pair yields 403, and a missing or empty `hub.mode` or `hub.verify_token`
yields 400. -/
theorem c5_handshake_amended (verificationToken : Option String)
    (q : VerifyQuery) :
    verifyWebhook verificationToken q = c5AmendedResponse verificationToken q := by
  rcases q with ⟨mode, token, challenge⟩
  rcases mode with _ | m
  · rfl
  · rcases token with _ | t
    · rcases m with ms | ml <;> rfl
    · rcases m with ms | ml <;> rcases t with ts | tl
      case inl.inl =>
        rcases verificationToken with _ | c
        · rfl
        · by_cases hm0 : ms = "" <;> by_cases hts : ts = "" <;>
            by_cases hms : ms = "subscribe" <;> by_cases hc : ts = c <;>
            simp_all [verifyWebhook, c5AmendedResponse, truthyQV, suppliedQV] <;>
            (rw [if_neg]; rintro ⟨-, h⟩; exact hc h.symm)
      case inl.inr =>
        rcases verificationToken with _ | c <;>
          by_cases hm0 : ms = "" <;> by_cases hms : ms = "subscribe" <;>
          simp_all [verifyWebhook, c5AmendedResponse, truthyQV, suppliedQV]
      case inr.inl =>
        have hF : ((Sum.inr ml : HeaderValue) == Sum.inl "subscribe") = false := rfl
        rcases verificationToken with _ | c <;> by_cases hts : ts = "" <;>
          simp_all [verifyWebhook, c5AmendedResponse, truthyQV, suppliedQV, hF]
      case inr.inr =>
        rcases verificationToken with _ | c <;>
          simp_all [verifyWebhook, c5AmendedResponse, truthyQV, suppliedQV]

/-! ## Claim C4 -/

/-- The reply extraction exactly as claim C4 states it: every non-empty text
fragment of every response message, in order, joined with newlines; fallback
when the join is empty. -/
def claimC4Reply (response : DetectIntentResponse) : String :=
  let t := String.intercalate "\n"
    (((responseMessagesOf response).flatMap fun msg =>
        (msg.text.bind AgentText.text).getD []).filter fun s => s ≠ "")
  if t = "" then agentFallbackText else t

/-- **C4 counterexample.** A single response message carrying the two
fragments `["a", "b"]`: the claim demands the reply `"a\nb"`, but the code
reads only element 0 of each message and replies `"a"`. -/
theorem c4_counterexample_second_fragment :
    detectIntentReply ⟨some ⟨some [⟨some ⟨some ["a", "b"]⟩⟩]⟩⟩ = "a"
    ∧ claimC4Reply ⟨some ⟨some [⟨some ⟨some ["a", "b"]⟩⟩]⟩⟩ = "a\nb"
    ∧ ("a" : String) ≠ "a\nb" := by
  refine ⟨rfl, rfl, by decide⟩

/-- The amended C4 extraction, phrased from the spec side: of each response
message only the first fragment is considered; messages without fragments
are skipped; empty first fragments are dropped; the join of what remains is
the reply, with the fallback substituted when it is empty. -/
def c4AmendedReply (response : DetectIntentResponse) : String :=
  let t := String.intercalate "\n"
    (((responseMessagesOf response).filterMap fun msg =>
        (msg.text.bind AgentText.text).bind List.head?).filter fun s => s ≠ "")
  if t = "" then agentFallbackText else t

theorem combineResponseText_eq_firstFragments (msgs : List ResponseMessage) :
    combineResponseText msgs = String.intercalate "\n"
      ((msgs.filterMap fun msg =>
          (msg.text.bind AgentText.text).bind List.head?).filter fun s => s ≠ "") := by
  unfold combineResponseText
  congr 1
  induction msgs with
  | nil => rfl
  | cons msg rest ih =>
    rcases msg with ⟨_ | ⟨_ | ⟨_ | ⟨h, t⟩⟩⟩⟩ <;>
      simp_all [List.filterMap_cons, List.filter_cons]

/-- **C4 (amended).** For every agent response the resolved reply equals the
amended extraction — newline-join of the per-message first fragments that
are non-empty — and is never the empty string: when nothing remains (zero
fragments included) it is the fixed clarification-request fallback. -/
theorem c4_reply_first_fragments (response : DetectIntentResponse) :
    detectIntentReply response = c4AmendedReply response
    ∧ detectIntentReply response ≠ ""
    ∧ (combineResponseText (responseMessagesOf response) = "" →
        detectIntentReply response = agentFallbackText) := by
  refine ⟨?_, ?_, ?_⟩
  · unfold detectIntentReply c4AmendedReply
    rw [combineResponseText_eq_firstFragments]
  · unfold detectIntentReply
    show (if combineResponseText (responseMessagesOf response) = "" then
        agentFallbackText else combineResponseText (responseMessagesOf response)) ≠ ""
    by_cases hc : combineResponseText (responseMessagesOf response) = ""
    · rw [if_pos hc]; decide
    · rw [if_neg hc]; exact hc
  · intro h
    unfold detectIntentReply
    rw [h]
    rfl

/-- **C4 witness.** The amended equality and the fallback evaluated on a
concrete empty-fragment response (`[""]` and `[]` both contribute nothing),
with the emptiness hypothesis discharged by computation. -/
theorem c4_reply_first_fragments_witness :
    detectIntentReply ⟨some ⟨some [⟨some ⟨some [""]⟩⟩, ⟨some ⟨some []⟩⟩]⟩⟩ =
        agentFallbackText
    ∧ detectIntentReply ⟨some ⟨some [⟨some ⟨some [""]⟩⟩, ⟨some ⟨some []⟩⟩]⟩⟩ ≠ "" :=
  ⟨(c4_reply_first_fragments ⟨some ⟨some [⟨some ⟨some [""]⟩⟩, ⟨some ⟨some []⟩⟩]⟩⟩).2.2 rfl,
   (c4_reply_first_fragments ⟨some ⟨some [⟨some ⟨some [""]⟩⟩, ⟨some ⟨some []⟩⟩]⟩⟩).2.1⟩

/-! ## Dispatcher lemmas and claims C3, C6, C7, C9, C10 -/

/-- A step whose result is a thrown error. -/
def stepFailed {α : Type} (x : Step α) : Prop := ∃ e, x.2 = Except.error e

theorem withApology_trace_of_error (env : Env) (toNumber apology : String)
    (tr : List Event) (e : Unit) :
    (withApology env toNumber apology (tr, Except.error e)).1 =
      tr ++ [Event.send toNumber apology] := by
  unfold withApology
  rfl

/-- The response and trace of a verified, correctly-classified delivery. -/
theorem handleWebhook_ok (appSecret : Option String)
    (serializeBody : WebhookBody → List Nat) (env : Env)
    (req : WebhookRequest WebhookBody)
    (hver : verifyRequestSignature appSecret serializeBody req = true)
    (hobj : req.body.object = some "whatsapp_business_account") :
    handleWebhook appSecret serializeBody env req =
      ((200, some "EVENT_RECEIVED"),
       (messagesOf req.body).flatMap (processMessage env)) := by
  unfold handleWebhook
  rw [hver, hobj]
  simp

/-! ### Claim C3 -/

/-- **C3.** For every delivery whose signature verifies and whose `object`
equals the expected literal: the response is the fixed 200 acknowledgement
whatever the environment does; the trace is the concatenation of
independent per-message traces (one message's failure cannot affect a
sibling's trace or the response); and for each message of a known type with
its payload present whose handler try-block throws anywhere (media fetch,
analysis, intent resolution, or the reply send), the per-message catch
sends that handler's apology to the sender. -/
theorem c3_ack_isolation_apology (appSecret : Option String)
    (serializeBody : WebhookBody → List Nat) (env : Env)
    (req : WebhookRequest WebhookBody)
    (hver : verifyRequestSignature appSecret serializeBody req = true)
    (hobj : req.body.object = some "whatsapp_business_account") :
    (handleWebhook appSecret serializeBody env req).1 = (200, some "EVENT_RECEIVED")
    ∧ (handleWebhook appSecret serializeBody env req).2 =
        (messagesOf req.body).flatMap (processMessage env)
    ∧ ∀ m ∈ messagesOf req.body,
        (∀ p, m.type = "text" → m.text = some p →
          stepFailed (handleTextMessageTry env m.from_ p.body) →
          Event.send m.from_
              "Sorry, I encountered an error processing your message."
            ∈ processMessage env m)
        ∧ (∀ p, m.type = "audio" → m.audio = some p →
          stepFailed (handleAudioMessageTry env m.from_ p.id) →
          Event.send m.from_
              "Sorry, I encountered an error processing your audio message."
            ∈ processMessage env m)
        ∧ (∀ p, m.type = "image" → m.image = some p →
          stepFailed (handleImageMessageTry env m.from_ p.id p.caption) →
          Event.send m.from_
              "Sorry, I encountered an error processing your image."
            ∈ processMessage env m)
        ∧ (∀ p, m.type = "document" → m.document = some p →
          stepFailed (handleDocumentMessageTry env m.from_ p.id p.filename) →
          Event.send m.from_
              "Sorry, I encountered an error processing your document."
            ∈ processMessage env m)
        ∧ (∀ p, m.type = "video" → m.video = some p →
          stepFailed (handleVideoMessageTry env m.from_ p.id p.caption) →
          Event.send m.from_
              "Sorry, I encountered an error processing your video."
            ∈ processMessage env m) := by
  have hw := handleWebhook_ok appSecret serializeBody env req hver hobj
  refine ⟨by rw [hw], by rw [hw], ?_⟩
  intro m _
  refine ⟨?_, ?_, ?_, ?_, ?_⟩
  · intro p hty hp hfail
    obtain ⟨e, he⟩ := hfail
    unfold processMessage
    rw [hty, hp]
    show Event.send m.from_ _ ∈ (handleTextMessage env m.from_ m.id p.body).1
    unfold handleTextMessage
    rcases hs : handleTextMessageTry env m.from_ p.body with ⟨tr, r⟩
    rw [hs] at he
    cases r with
    | ok _ => cases he
    | error e2 => rw [withApology_trace_of_error]; simp
  · intro p hty hp hfail
    obtain ⟨e, he⟩ := hfail
    unfold processMessage
    rw [hty, hp]
    show Event.send m.from_ _ ∈
      (handleAudioMessage env m.from_ m.id p.id p.mime_type).1
    unfold handleAudioMessage
    rcases hs : handleAudioMessageTry env m.from_ p.id with ⟨tr, r⟩
    rw [hs] at he
    cases r with
    | ok _ => cases he
    | error e2 => rw [withApology_trace_of_error]; simp
  · intro p hty hp hfail
    obtain ⟨e, he⟩ := hfail
    unfold processMessage
    rw [hty, hp]
    show Event.send m.from_ _ ∈
      (handleImageMessage env m.from_ m.id p.id p.caption).1
    unfold handleImageMessage
    rcases hs : handleImageMessageTry env m.from_ p.id p.caption with ⟨tr, r⟩
    rw [hs] at he
    cases r with
    | ok _ => cases he
    | error e2 => rw [withApology_trace_of_error]; simp
  · intro p hty hp hfail
    obtain ⟨e, he⟩ := hfail
    unfold processMessage
    rw [hty, hp]
    show Event.send m.from_ _ ∈
      (handleDocumentMessage env m.from_ m.id p.id p.filename p.mime_type).1
    unfold handleDocumentMessage
    rcases hs : handleDocumentMessageTry env m.from_ p.id p.filename with ⟨tr, r⟩
    rw [hs] at he
    cases r with
    | ok _ => cases he
    | error e2 => rw [withApology_trace_of_error]; simp
  · intro p hty hp hfail
    obtain ⟨e, he⟩ := hfail
    unfold processMessage
    rw [hty, hp]
    show Event.send m.from_ _ ∈
      (handleVideoMessage env m.from_ m.id p.id p.caption).1
    unfold handleVideoMessage
    rcases hs : handleVideoMessageTry env m.from_ p.id p.caption with ⟨tr, r⟩
    rw [hs] at he
    cases r with
    | ok _ => cases he
    | error e2 => rw [withApology_trace_of_error]; simp

/-- An environment in which every external service throws, except that the
reply send succeeds. -/
def exampleEnvFail : Env :=
  { detectIntent := fun _ _ => Except.error ()
    downloadMedia := fun _ => Except.error ()
    analyzeAudio := fun _ _ => Except.error ()
    analyzeImage := fun _ _ _ => Except.error ()
    analyzeDocument := fun _ _ _ => Except.error ()
    generateVideoContent := fun _ _ _ => Except.error ()
    sendTextMessage := fun _ _ => Except.ok () }

def exampleMessageText : Message :=
  ⟨"15551230001", "wamid.1", "text", some ⟨"hi"⟩, none, none, none, none⟩

def exampleMessageSticker : Message :=
  ⟨"15551230002", "wamid.2", "sticker", none, none, none, none, none⟩

def exampleMessageNoPayload : Message :=
  ⟨"15551230003", "wamid.3", "text", none, none, none, none, none⟩

/-- A one-entry, one-change delivery body carrying the given messages. -/
def mkBody (msgs : List Message) : WebhookBody :=
  ⟨some "whatsapp_business_account", some [⟨some [⟨⟨some msgs, none⟩⟩]⟩]⟩

/-- A POST request with a valid signature over `exampleRaw1` and the given
parsed body. -/
def mkReq (b : WebhookBody) : WebhookRequest WebhookBody :=
  ⟨exampleHeader, some exampleRaw1, b⟩

/-- **C3 witness.** A verified delivery carrying a text message and a
sticker sibling, in an environment where the agent throws: the response is
the 200 acknowledgement and the text message's pipeline failure becomes the
apology reply to its sender. -/
theorem c3_ack_isolation_apology_witness :
    (handleWebhook (some exampleSecret) exampleSerialize exampleEnvFail
        (mkReq (mkBody [exampleMessageText, exampleMessageSticker]))).1 =
      (200, some "EVENT_RECEIVED")
    ∧ Event.send "15551230001"
        "Sorry, I encountered an error processing your message."
        ∈ processMessage exampleEnvFail exampleMessageText := by
  have h := c3_ack_isolation_apology (some exampleSecret) exampleSerialize
    exampleEnvFail (mkReq (mkBody [exampleMessageText, exampleMessageSticker]))
    (by decide) rfl
  exact ⟨h.1,
    (h.2.2 exampleMessageText (by decide)).1 ⟨"hi"⟩ rfl rfl ⟨(), rfl⟩⟩

/-! ### Claim C6 -/

/-- **C6.** A verified message of an unsupported type: its whole trace is
the single fixed unsupported-type reply to its sender — so the Media
Fetcher, Content Analyzer and Intent Resolver are never invoked for it —
that reply is in the delivery's trace, and the response is still the 200
acknowledgement. -/
theorem c6_unsupported_type_reply (appSecret : Option String)
    (serializeBody : WebhookBody → List Nat) (env : Env)
    (req : WebhookRequest WebhookBody) (m : Message)
    (hver : verifyRequestSignature appSecret serializeBody req = true)
    (hobj : req.body.object = some "whatsapp_business_account")
    (hm : m ∈ messagesOf req.body)
    (hty : m.type ∉ (["text", "audio", "image", "document", "video"] : List String)) :
    processMessage env m =
      [Event.send m.from_ ("Sorry, I cannot process " ++ m.type ++ " messages yet.")]
    ∧ Event.send m.from_ ("Sorry, I cannot process " ++ m.type ++ " messages yet.")
        ∈ (handleWebhook appSecret serializeBody env req).2
    ∧ (handleWebhook appSecret serializeBody env req).1 =
        (200, some "EVENT_RECEIVED") := by
  have hw := handleWebhook_ok appSecret serializeBody env req hver hobj
  simp only [List.mem_cons, List.not_mem_nil, or_false, not_or] at hty
  obtain ⟨h1, h2, h3, h4, h5⟩ := hty
  have htr : processMessage env m =
      [Event.send m.from_ ("Sorry, I cannot process " ++ m.type ++ " messages yet.")] := by
    unfold processMessage
    split
    · exact absurd (by assumption) h1
    · exact absurd (by assumption) h2
    · exact absurd (by assumption) h3
    · exact absurd (by assumption) h4
    · exact absurd (by assumption) h5
    · rfl
  refine ⟨htr, ?_, by rw [hw]⟩
  rw [hw]
  exact List.mem_flatMap.mpr ⟨m, hm, by rw [htr]; simp⟩

/-- **C6 witness.** The sticker message of the C3 delivery: its trace is
exactly the fixed apology, that apology reaches the delivery trace, and the
response is the 200 acknowledgement. -/
theorem c6_unsupported_type_reply_witness :
    processMessage exampleEnvFail exampleMessageSticker =
      [Event.send "15551230002" "Sorry, I cannot process sticker messages yet."]
    ∧ (handleWebhook (some exampleSecret) exampleSerialize exampleEnvFail
        (mkReq (mkBody [exampleMessageText, exampleMessageSticker]))).1 =
      (200, some "EVENT_RECEIVED") := by
  have h := c6_unsupported_type_reply (some exampleSecret) exampleSerialize
    exampleEnvFail (mkReq (mkBody [exampleMessageText, exampleMessageSticker]))
    exampleMessageSticker (by decide) rfl (by decide) (by decide)
  exact ⟨h.1, h.2.2⟩

/-! ### Claim C7 -/

/-- **C7.** A verified delivery whose `object` differs from the expected
literal gets the 404 response and an empty trace: no media fetch, analysis,
intent resolution or reply send is ever invoked. -/
theorem c7_object_mismatch_404 (appSecret : Option String)
    (serializeBody : WebhookBody → List Nat) (env : Env)
    (req : WebhookRequest WebhookBody)
    (hver : verifyRequestSignature appSecret serializeBody req = true)
    (hobj : req.body.object ≠ some "whatsapp_business_account") :
    handleWebhook appSecret serializeBody env req = ((404, none), []) := by
  unfold handleWebhook
  rw [hver]
  simp [hobj]

/-- **C7 witness.** A correctly signed delivery for a different object
literal: 404, empty trace. -/
theorem c7_object_mismatch_404_witness :
    handleWebhook (some exampleSecret) exampleSerialize exampleEnvFail
        (mkReq ⟨some "instagram", none⟩) = ((404, none), []) :=
  c7_object_mismatch_404 (some exampleSecret) exampleSerialize exampleEnvFail
    (mkReq ⟨some "instagram", none⟩) (by decide) (by decide)

/-! ### Claim C10 -/

/-- **C10.** A verified message naming a known type whose variant payload
object is absent: the property access throws before any call, the
per-message catch only logs, so the message's trace is empty — no agent
reply and no apology — and the response is still the 200 acknowledgement. -/
theorem c10_missing_payload_silent (appSecret : Option String)
    (serializeBody : WebhookBody → List Nat) (env : Env)
    (req : WebhookRequest WebhookBody) (m : Message)
    (hver : verifyRequestSignature appSecret serializeBody req = true)
    (hobj : req.body.object = some "whatsapp_business_account")
    (_hm : m ∈ messagesOf req.body)
    (hmiss : (m.type = "text" ∧ m.text = none)
      ∨ (m.type = "audio" ∧ m.audio = none)
      ∨ (m.type = "image" ∧ m.image = none)
      ∨ (m.type = "document" ∧ m.document = none)
      ∨ (m.type = "video" ∧ m.video = none)) :
    processMessage env m = []
    ∧ (handleWebhook appSecret serializeBody env req).1 =
        (200, some "EVENT_RECEIVED") := by
  have hw := handleWebhook_ok appSecret serializeBody env req hver hobj
  refine ⟨?_, by rw [hw]⟩
  rcases hmiss with ⟨hty, hp⟩ | ⟨hty, hp⟩ | ⟨hty, hp⟩ | ⟨hty, hp⟩ | ⟨hty, hp⟩ <;>
    · unfold processMessage
      rw [hty, hp]
      rfl

/-- **C10 witness.** A verified delivery whose only message has
`type = "text"` but no `text` payload: its trace is empty and the response
is the 200 acknowledgement. -/
theorem c10_missing_payload_silent_witness :
    processMessage exampleEnvFail exampleMessageNoPayload = []
    ∧ (handleWebhook (some exampleSecret) exampleSerialize exampleEnvFail
        (mkReq (mkBody [exampleMessageNoPayload]))).1 =
      (200, some "EVENT_RECEIVED") :=
  c10_missing_payload_silent (some exampleSecret) exampleSerialize exampleEnvFail
    (mkReq (mkBody [exampleMessageNoPayload])) exampleMessageNoPayload
    (by decide) rfl (by decide) (Or.inl ⟨rfl, rfl⟩)

/-! ### Claim C9 -/

/-- **C9.** In every media pipeline the MIME type handed to the analysis is
the one the media download itself reported: the handlers do not depend on
the inbound `mime_type` at all (first two conjuncts, for the two handlers
that receive one), and every analysis invocation in any handler trace
carries exactly the MIME type of the successfully downloaded blob. -/
theorem c9_analysis_mime_from_download (env : Env) (from_ mid mediaId : String) :
    (∀ mimeA mimeB, handleAudioMessage env from_ mid mediaId mimeA =
        handleAudioMessage env from_ mid mediaId mimeB)
    ∧ (∀ filename mimeA mimeB,
        handleDocumentMessage env from_ mid mediaId filename mimeA =
          handleDocumentMessage env from_ mid mediaId filename mimeB)
    ∧ (∀ mimeIn mime,
        Event.analyzeAudioEv mime ∈ (handleAudioMessage env from_ mid mediaId mimeIn).1 →
        ∃ blob, env.downloadMedia mediaId = Except.ok blob ∧ mime = blob.mimeType)
    ∧ (∀ caption mime prompt,
        Event.analyzeImageEv mime prompt
            ∈ (handleImageMessage env from_ mid mediaId caption).1 →
        ∃ blob, env.downloadMedia mediaId = Except.ok blob ∧ mime = blob.mimeType)
    ∧ (∀ filename mimeIn mime fn,
        Event.analyzeDocumentEv mime fn
            ∈ (handleDocumentMessage env from_ mid mediaId filename mimeIn).1 →
        ∃ blob, env.downloadMedia mediaId = Except.ok blob ∧ mime = blob.mimeType)
    ∧ (∀ caption mime prompt,
        Event.analyzeVideoEv mime prompt
            ∈ (handleVideoMessage env from_ mid mediaId caption).1 →
        ∃ blob, env.downloadMedia mediaId = Except.ok blob ∧ mime = blob.mimeType) := by
  refine ⟨fun _ _ => rfl, fun _ _ _ => rfl, ?_, ?_, ?_, ?_⟩
  · intro mimeIn mime hmem
    cases hdl : env.downloadMedia mediaId with
    | error e =>
      simp [handleAudioMessage, handleAudioMessageTry, withApology, stepBind,
        callDownloadMedia, hdl] at hmem
    | ok blob =>
      cases ha : env.analyzeAudio blob.data blob.mimeType with
      | error e =>
        simp [handleAudioMessage, handleAudioMessageTry, withApology, stepBind,
          callDownloadMedia, callAnalyzeAudio, hdl, ha] at hmem
        exact ⟨blob, rfl, hmem⟩
      | ok analysis =>
        cases hdt : env.detectIntent analysis from_ with
        | error e =>
          simp [handleAudioMessage, handleAudioMessageTry, withApology, stepBind,
            callDownloadMedia, callAnalyzeAudio, callDetectIntent, hdl, ha, hdt] at hmem
          exact ⟨blob, rfl, hmem⟩
        | ok response =>
          cases hsd : env.sendTextMessage from_ response with
          | error e =>
            simp [handleAudioMessage, handleAudioMessageTry, withApology, stepBind,
              callDownloadMedia, callAnalyzeAudio, callDetectIntent, callSendText,
              hdl, ha, hdt, hsd] at hmem
            exact ⟨blob, rfl, hmem⟩
          | ok u =>
            simp [handleAudioMessage, handleAudioMessageTry, withApology, stepBind,
              callDownloadMedia, callAnalyzeAudio, callDetectIntent, callSendText,
              hdl, ha, hdt, hsd] at hmem
            exact ⟨blob, rfl, hmem⟩
  · intro caption mime prompt hmem
    cases hdl : env.downloadMedia mediaId with
    | error e =>
      simp [handleImageMessage, handleImageMessageTry, withApology, stepBind,
        callDownloadMedia, hdl] at hmem
    | ok blob =>
      cases ha : env.analyzeImage blob.data blob.mimeType (imagePrompt caption) with
      | error e =>
        simp [handleImageMessage, handleImageMessageTry, withApology, stepBind,
          callDownloadMedia, callAnalyzeImage, hdl, ha] at hmem
        exact ⟨blob, rfl, hmem.1⟩
      | ok analysis =>
        cases hdt : env.detectIntent analysis from_ with
        | error e =>
          simp [handleImageMessage, handleImageMessageTry, withApology, stepBind,
            callDownloadMedia, callAnalyzeImage, callDetectIntent, hdl, ha, hdt] at hmem
          exact ⟨blob, rfl, hmem.1⟩
        | ok response =>
          cases hsd : env.sendTextMessage from_ response with
          | error e =>
            simp [handleImageMessage, handleImageMessageTry, withApology, stepBind,
              callDownloadMedia, callAnalyzeImage, callDetectIntent, callSendText,
              hdl, ha, hdt, hsd] at hmem
            exact ⟨blob, rfl, hmem.1⟩
          | ok u =>
            simp [handleImageMessage, handleImageMessageTry, withApology, stepBind,
              callDownloadMedia, callAnalyzeImage, callDetectIntent, callSendText,
              hdl, ha, hdt, hsd] at hmem
            exact ⟨blob, rfl, hmem.1⟩
  · intro filename mimeIn mime fn hmem
    cases hdl : env.downloadMedia mediaId with
    | error e =>
      simp [handleDocumentMessage, handleDocumentMessageTry, withApology, stepBind,
        callDownloadMedia, hdl] at hmem
    | ok blob =>
      cases ha : env.analyzeDocument blob.data blob.mimeType filename with
      | error e =>
        simp [handleDocumentMessage, handleDocumentMessageTry, withApology, stepBind,
          callDownloadMedia, callAnalyzeDocument, hdl, ha] at hmem
        exact ⟨blob, rfl, hmem.1⟩
      | ok analysis =>
        cases hdt : env.detectIntent analysis from_ with
        | error e =>
          simp [handleDocumentMessage, handleDocumentMessageTry, withApology, stepBind,
            callDownloadMedia, callAnalyzeDocument, callDetectIntent, hdl, ha, hdt] at hmem
          exact ⟨blob, rfl, hmem.1⟩
        | ok response =>
          cases hsd : env.sendTextMessage from_ response with
          | error e =>
            simp [handleDocumentMessage, handleDocumentMessageTry, withApology, stepBind,
              callDownloadMedia, callAnalyzeDocument, callDetectIntent, callSendText,
              hdl, ha, hdt, hsd] at hmem
            exact ⟨blob, rfl, hmem.1⟩
          | ok u =>
            simp [handleDocumentMessage, handleDocumentMessageTry, withApology, stepBind,
              callDownloadMedia, callAnalyzeDocument, callDetectIntent, callSendText,
              hdl, ha, hdt, hsd] at hmem
            exact ⟨blob, rfl, hmem.1⟩
  · intro caption mime prompt hmem
    cases hdl : env.downloadMedia mediaId with
    | error e =>
      simp [handleVideoMessage, handleVideoMessageTry, withApology, stepBind,
        callDownloadMedia, hdl] at hmem
    | ok blob =>
      cases ha : env.generateVideoContent (videoPrompt caption) blob.data blob.mimeType with
      | error e =>
        simp [handleVideoMessage, handleVideoMessageTry, withApology, stepBind,
          callDownloadMedia, callGenerateVideo, hdl, ha] at hmem
        exact ⟨blob, rfl, hmem.1⟩
      | ok analysis =>
        cases hdt : env.detectIntent analysis from_ with
        | error e =>
          simp [handleVideoMessage, handleVideoMessageTry, withApology, stepBind,
            callDownloadMedia, callGenerateVideo, callDetectIntent, hdl, ha, hdt] at hmem
          exact ⟨blob, rfl, hmem.1⟩
        | ok response =>
          cases hsd : env.sendTextMessage from_ response with
          | error e =>
            simp [handleVideoMessage, handleVideoMessageTry, withApology, stepBind,
              callDownloadMedia, callGenerateVideo, callDetectIntent, callSendText,
              hdl, ha, hdt, hsd] at hmem
            exact ⟨blob, rfl, hmem.1⟩
          | ok u =>
            simp [handleVideoMessage, handleVideoMessageTry, withApology, stepBind,
              callDownloadMedia, callGenerateVideo, callDetectIntent, callSendText,
              hdl, ha, hdt, hsd] at hmem
            exact ⟨blob, rfl, hmem.1⟩

end WhatsAppBot
